import Mathlib

/-!
# Verification of the prefecture-quiz application (`src/main.py`)

A shallow embedding of the quiz application's core: the answer evaluator
(`process_answer`), the hint-budget logic of `present_quiz`, the request
wrapper `send_cortex_message`, the response renderer
`display_cortex_content`, and the attempt/reset logic of `run`.

Python integers are modelled as `Int` (the hint counter) or `Nat` (the
attempt counter, which is only ever set to 0 or incremented); Python
`str.strip()` is modelled by `pyStrip` over the Unicode whitespace set;
JSON values parsed from the HTTP response are modelled by the inductive
`Json`; an operation that would raise an uncaught Python exception is
modelled by `Option.none` or the `StepOutcome.raised` marker.
-/

/-- Unicode whitespace as recognised by Python's `str.strip()` /
`str.isspace()` (the `Py_UNICODE_ISSPACE` set). -/
def pyIsSpace (c : Char) : Bool :=
  decide (c.toNat = 0x20 ∨ (0x9 ≤ c.toNat ∧ c.toNat ≤ 0xd)
    ∨ (0x1c ≤ c.toNat ∧ c.toNat ≤ 0x1f)
    ∨ c.toNat = 0x85 ∨ c.toNat = 0xa0 ∨ c.toNat = 0x1680
    ∨ (0x2000 ≤ c.toNat ∧ c.toNat ≤ 0x200a)
    ∨ c.toNat = 0x2028 ∨ c.toNat = 0x2029 ∨ c.toNat = 0x202f
    ∨ c.toNat = 0x205f ∨ c.toNat = 0x3000)

/-- Python's `s.strip()`: remove leading and trailing whitespace. -/
def pyStrip (s : String) : String :=
  String.mk (((s.data.dropWhile pyIsSpace).reverse.dropWhile pyIsSpace).reverse)

/-- `MAX_ATTEMPTS_MAIN = 100` (src/main.py line 9). -/
def MAX_ATTEMPTS_MAIN : Nat := 100

/-- `MAX_HINTS = 2` (src/main.py line 10). -/
def MAX_HINTS : Int := 2

/-- The per-tab quiz state dict created by `init_state`:
`{'tab_name': ..., 'is_clear': False, 'attempts': 0}`. -/
structure QuizState where
  tab_name : String
  is_clear : Bool
  attempts : Nat
deriving Repr, DecidableEq

/-- What `process_answer` displays about the submitted answer:
`st.success` (correct), `st.error` (wrong), or the `st.warning`
for blank input. -/
inductive AnswerOutcome where
  | accepted
  | rejected
  | emptyWarned
deriving Repr, DecidableEq

/-- The configured correct answer (src/main.py line 275). -/
def correct_answer : String := "岡山県"

/-- `process_answer(answer, state)` (src/main.py lines 273-296), as a pure
function from the submitted string and the state dict to the updated state
dict and the displayed outcome.  The guard `if answer and answer.strip():`
is Python truthiness of the raw and stripped strings. -/
def process_answer (answer : String) (state : QuizState) :
    QuizState × AnswerOutcome :=
  if answer ≠ "" ∧ pyStrip answer ≠ "" then
    let state1 : QuizState := { state with attempts := state.attempts + 1 }
    if pyStrip answer = correct_answer then
      ({ state1 with is_clear := true }, .accepted)
    else
      ({ state1 with is_clear := false }, .rejected)
  else
    (state, .emptyWarned)

example : (process_answer " 岡山県 " ⟨"q6_test", false, 0⟩).2 = .accepted := by decide
example : process_answer "   " ⟨"q6_test", false, 0⟩
    = (⟨"q6_test", false, 0⟩, .emptyWarned) := by decide
example : (process_answer "東京都" ⟨"q6_test", false, 0⟩).2 = .rejected := by decide

/-- C1: the answer evaluator trims surrounding whitespace, signals empty
input without mutating the state when the trimmed input is empty, and
otherwise accepts exactly the configured correct string `"岡山県"`; in
particular the correct answer surrounded by whitespace is accepted. -/
theorem process_answer_evaluates_trimmed_exact (a : String) (q : QuizState) :
    (pyStrip a = "" → process_answer a q = (q, .emptyWarned))
    ∧ (pyStrip a ≠ "" →
        ((process_answer a q).2 = .accepted ↔ pyStrip a = correct_answer))
    ∧ (process_answer " 岡山県 " q).2 = .accepted := by
  refine ⟨?_, ?_, ?_⟩
  · intro h
    unfold process_answer
    rw [if_neg]
    rintro ⟨-, h2⟩
    exact h2 h
  · intro h
    have ha : a ≠ "" := by
      intro he
      apply h
      rw [he]
      rfl
    unfold process_answer
    rw [if_pos ⟨ha, h⟩]
    by_cases hc : pyStrip a = correct_answer
    · rw [if_pos hc]
      simpa using hc
    · rw [if_neg hc]
      simp [hc]
  · have h1 : (" 岡山県 " : String) ≠ "" ∧ pyStrip " 岡山県 " ≠ "" := by decide
    have h2 : pyStrip " 岡山県 " = correct_answer := by decide
    unfold process_answer
    rw [if_pos h1, if_pos h2]

/-- Witness for C1 at concrete inputs. -/
theorem process_answer_evaluates_trimmed_exact_witness :
    process_answer "" ⟨"q6_test", false, 0⟩
      = (⟨"q6_test", false, 0⟩, .emptyWarned)
    ∧ ((process_answer "東京都" ⟨"q6_test", false, 0⟩).2 = .accepted
        ↔ pyStrip "東京都" = correct_answer) :=
  ⟨(process_answer_evaluates_trimmed_exact "" ⟨"q6_test", false, 0⟩).1 rfl,
   (process_answer_evaluates_trimmed_exact "東京都" ⟨"q6_test", false, 0⟩).2.1
     (by decide)⟩

/-! ## JSON values and the Cortex Analyst request wrapper -/

/-- A parsed JSON value, as `resp.json()` returns it. -/
inductive Json where
  | null : Json
  | bool : Bool → Json
  | num : Int → Json
  | str : String → Json
  | arr : List Json → Json
  | obj : List (String × Json) → Json

/-- Association-list lookup, as Python dict indexing `d[k]` finds a key. -/
def lookupField : List (String × Json) → String → Option Json
  | [], _ => none
  | (k1, v) :: rest, k => if k1 = k then some v else lookupField rest k

/-- `j[k]` on a JSON value: `some` on a dict holding the key, `none` when
the key is missing (Python `KeyError`) or the value is not a dict
(Python `TypeError`). -/
def Json.get (j : Json) (k : String) : Option Json :=
  match j with
  | .obj fields => lookupField fields k
  | _ => none

/-- Python truthiness of a JSON value (`if response:`): `None`, `False`,
`0`, `""`, `[]` and `{}` are falsy. -/
def Json.truthy : Json → Bool
  | .null => false
  | .bool b => b
  | .num n => n != 0
  | .str s => s != ""
  | .arr xs => !xs.isEmpty
  | .obj fields => !fields.isEmpty

/-- Tabular rows, as returned by `pd.read_sql`. -/
abbrev Rows := List (List String)

/-- The Snowflake connector object: its host, the token found at
`connector.rest.token` (or `none` when absent), and its capability of
executing a SQL statement, which either returns rows or raises an error
that the renderer catches (`Except.error` carries `str(e)`). -/
structure Connector where
  host : String
  token : Option String
  runSql : Json → Except String Rows

/-- `DATABASE` (src/main.py line 13). -/
def DATABASE : String := "SNOWFLAKE_LEARNING_DB"

/-- `SCHEMA` (src/main.py line 14). -/
def SCHEMA : String := "CORTEX_ANALYST_DEMO"

/-- `STAGE` (src/main.py line 15). -/
def STAGE : String := "RAW_DATA"

/-- `FILE` (src/main.py line 16). -/
def FILE : String := "semantic_model_J_CI_FD20.yaml"

/-- The `request_body` built by `send_cortex_message`
(src/main.py lines 101-104). -/
def cortexRequestBody (prompt : String) : Json :=
  .obj [("messages",
          .arr [.obj [("role", .str "user"),
                      ("content",
                        .arr [.obj [("type", .str "text"),
                                    ("text", .str prompt)]])]]),
        ("semantic_model_file",
          .str ("@" ++ DATABASE ++ "." ++ SCHEMA ++ "." ++ STAGE ++ "/" ++ FILE))]

/-- What the environment does with the `requests.post` call: an HTTP
response with a status code, the result of parsing its body as JSON
(`Except.error` carries the decode exception's message), and the value of
a request-correlation response header when one was sent; or a raised
transport exception with its message. -/
inductive TransportResult where
  | httpResponse : Nat → Except String Json → Option String → TransportResult
  | exn : String → TransportResult

/-- The observable result of `send_cortex_message`: the returned
`Optional[Dict]`, the `st.error` messages displayed, and how many times
`requests.post` was invoked. -/
structure SendResult where
  result : Option Json
  errors : List String
  networkCalls : Nat

/-- `send_cortex_message(prompt, connector)` (src/main.py lines 98-135).
If the connector exposes no token the function displays an error and
returns `None` without any network call.  Otherwise the request is posted;
a transport exception or a JSON-decode failure is caught by the outer
`except` and displayed as `Cortex Analystエラー: ...`; a status `>= 400`
is displayed as `Cortex Analyst API Error: <status>`; a status `< 400`
with a parseable body returns the parsed JSON. -/
def send_cortex_message (prompt : String) (c : Connector)
    (t : TransportResult) : SendResult :=
  let _body := cortexRequestBody prompt
  match c.token with
  | none =>
      { result := none, errors := ["認証トークンの取得に失敗しました"],
        networkCalls := 0 }
  | some _ =>
      match t with
      | .exn msg =>
          { result := none, errors := ["Cortex Analystエラー: " ++ msg],
            networkCalls := 1 }
      | .httpResponse status body _rid =>
          if status < 400 then
            match body with
            | .ok j => { result := some j, errors := [], networkCalls := 1 }
            | .error e =>
                { result := none,
                  errors := ["Cortex Analystエラー: " ++ e], networkCalls := 1 }
          else
            { result := none,
              errors := ["Cortex Analyst API Error: " ++ toString status],
              networkCalls := 1 }

/-! ## Rendering a Cortex response (`display_cortex_content`) -/

/-- A rendered unit of `display_cortex_content`: either markdown text
(the value of the item's `text` key) or a SQL query block showing the
item's `statement` together with the outcome of running it on the
connector. -/
inductive RenderedBlock where
  | text : Json → RenderedBlock
  | query : Json → Except String Rows → RenderedBlock

/-- Does a JSON value equal a given Python string under `==`?  A non-string
value simply compares unequal. -/
def Json.isStr (j : Json) (s : String) : Bool :=
  match j with
  | .str t => t = s
  | _ => false

/-- The body of the `for` loop of `display_cortex_content`
(src/main.py lines 139-151) on one item: `none` when the iteration raises
(missing `type`/`text`/`statement` key or a non-dict item), `some none`
when the item's type is neither `"text"` nor `"sql"` (the loop displays
nothing), and `some (some b)` when block `b` is displayed.  The SQL
execution error is caught by the inner `try` and rendered inline. -/
def displayItem (c : Connector) (item : Json) :
    Option (Option RenderedBlock) :=
  match item.get "type" with
  | none => none
  | some ty =>
    if ty.isStr "text" then
      match item.get "text" with
      | none => none
      | some body => some (some (.text body))
    else if ty.isStr "sql" then
      match item.get "statement" with
      | none => none
      | some stmt => some (some (.query stmt (c.runSql stmt)))
    else
      some none

/-- `display_cortex_content(content, connector)` over a content list:
the sequence of rendered blocks, or `none` when some item raises. -/
def display_cortex_content (content : List Json) (c : Connector) :
    Option (List RenderedBlock) :=
  match content with
  | [] => some []
  | item :: rest =>
    match displayItem c item with
    | none => none
    | some b? =>
      match display_cortex_content rest c with
      | none => none
      | some bs =>
        some (match b? with
              | some b => b :: bs
              | none => bs)

/-- `display_cortex_content` applied to the raw JSON value found at
`response["message"]["content"]`: Python iterates a list item by item;
iterating an empty string or empty dict runs the loop zero times; any
other non-list value raises inside the loop (`TypeError` on `item["type"]`
or on the `for` itself). -/
def displayContentValue (content : Json) (c : Connector) :
    Option (List RenderedBlock) :=
  match content with
  | .arr items => display_cortex_content items c
  | .str s => if s = "" then some [] else none
  | .obj fields => if fields.isEmpty then some [] else none
  | _ => none

/-- C8: a content array holding one `text` item and one `sql` item renders
to exactly two blocks in the original order — the text body first, then a
query block whose rows come from executing the embedded statement on the
same connector. -/
theorem display_preserves_order_and_count (t s : String) (c : Connector) :
    display_cortex_content
      [Json.obj [("type", .str "text"), ("text", .str t)],
       Json.obj [("type", .str "sql"), ("statement", .str s)]] c
    = some [.text (.str t), .query (.str s) (c.runSql (.str s))] := by
  simp [display_cortex_content, displayItem, Json.get, lookupField, Json.isStr]

/-! ## C4: failure results of the request wrapper -/

/-- C4 counterexample: the failure value returned for an HTTP 503 carries
no request id read from the response header — two 503 responses differing
only in that header produce identical results — and is the untyped `None`
(plus a displayed message), not a structured error value with an
`httpStatus` field. -/
theorem send_cortex_message_ignores_request_id_header :
    send_cortex_message "q"
        { host := "h", token := some "tok", runSql := fun _ => .error "e" }
        (.httpResponse 503 (.ok .null) (some "req-abc"))
      = send_cortex_message "q"
          { host := "h", token := some "tok", runSql := fun _ => .error "e" }
          (.httpResponse 503 (.ok .null) (some "req-xyz"))
    ∧ (send_cortex_message "q"
        { host := "h", token := some "tok", runSql := fun _ => .error "e" }
        (.httpResponse 503 (.ok .null) (some "req-abc"))).result = none :=
  ⟨rfl, rfl⟩

/-- C4 amended: on a missing token, a transport failure, or an HTTP status
`>= 400`, `send_cortex_message` returns (never raises) the failure value
`None` and displays one human-readable message; for an HTTP error the
message contains the status code (so a 503 yields
`"Cortex Analyst API Error: 503"`); no request id is read from response
headers and no structured error value is produced. -/
theorem send_cortex_message_error_paths_return_none (p : String)
    (c : Connector) (tok : String) (status : Nat) (body : Except String Json)
    (rid : Option String) (msg : String) :
    (c.token = none →
      send_cortex_message p c (.httpResponse status body rid)
        = ⟨none, ["認証トークンの取得に失敗しました"], 0⟩)
    ∧ (c.token = some tok →
      send_cortex_message p c (.exn msg)
        = ⟨none, ["Cortex Analystエラー: " ++ msg], 1⟩)
    ∧ (c.token = some tok → 400 ≤ status →
      send_cortex_message p c (.httpResponse status body rid)
        = ⟨none, ["Cortex Analyst API Error: " ++ toString status], 1⟩) := by
  refine ⟨?_, ?_, ?_⟩
  · intro h
    unfold send_cortex_message
    rw [h]
  · intro h
    unfold send_cortex_message
    rw [h]
  · intro h hs
    unfold send_cortex_message
    rw [h]
    simp only
    rw [if_neg (by omega)]

/-- Witness for C4's amended theorem at a concrete 503 response. -/
theorem send_cortex_message_error_paths_return_none_witness :
    send_cortex_message "q"
        { host := "h", token := some "tok", runSql := fun _ => .error "e" }
        (.httpResponse 503 (.ok .null) none)
      = ⟨none, ["Cortex Analyst API Error: " ++ toString 503], 1⟩ :=
  (send_cortex_message_error_paths_return_none "q"
      { host := "h", token := some "tok", runSql := fun _ => .error "e" }
      "tok" 503 (.ok .null) none "m").2.2 rfl (by omega)

/-! ## The hint budget state machine of `present_quiz` -/

/-- The per-tab hint state kept in `st.session_state`:
`<tab>_hint_count` and `<tab>_hints_history`. -/
structure HintSession where
  hintCount : Int
  history : List (String × Json)

/-- The hint state as initialised on lines 197-200: count 0, empty
history. -/
def initHintSession : HintSession := { hintCount := 0, history := [] }

/-- One rerun's inputs to the hint section of `present_quiz`: whether the
`ヒント取得` button fired, the question text, the connector (or `None`),
and what the transport does if a request is posted. -/
structure HintInputs where
  pressed : Bool
  question : String
  connector : Option Connector
  transport : TransportResult

/-- Whether the rerun finished normally or aborted with an uncaught
Python exception. -/
inductive StepOutcome where
  | normal
  | raised
deriving Repr, DecidableEq

/-- The observable result of one rerun of the hint section: the updated
session, the number of `requests.post` invocations, whether an uncaught
exception was raised, and whether the budget-exhausted warning of
line 251 was displayed. -/
structure HintStepResult where
  session : HintSession
  networkCalls : Nat
  outcome : StepOutcome
  budgetWarned : Bool

/-- The rollback of line 249:
`st.session_state[f'{tab_name}_hint_count'] -= 1`.  A plain decrement —
the code has no clamp at zero. -/
def rollbackHint (h : Int) : Int := h - 1

/-- Lines 236-249: the body of `if get_hint and hint_question and
connector:`.  The count is pre-debited, the request is sent; a truthy
response has `message.content` extracted (raising when the structure is
absent), recorded in the history and displayed; a falsy or `None`
response takes the rollback branch. -/
def hintProcess (s : HintSession) (q : String) (c : Connector)
    (t : TransportResult) : HintStepResult :=
  let h1 : Int := s.hintCount + 1
  let sr := send_cortex_message q c t
  match sr.result with
  | some body =>
    if body.truthy then
      match (body.get "message").bind (fun m => m.get "content") with
      | some content =>
          { session := { hintCount := h1, history := s.history ++ [(q, content)] },
            networkCalls := sr.networkCalls,
            outcome := match displayContentValue content c with
              | some _ => .normal
              | none => .raised,
            budgetWarned := false }
      | none =>
          { session := { hintCount := h1, history := s.history },
            networkCalls := sr.networkCalls,
            outcome := .raised,
            budgetWarned := false }
    else
      { session := { hintCount := rollbackHint h1, history := s.history },
        networkCalls := sr.networkCalls,
        outcome := .normal,
        budgetWarned := false }
  | none =>
      { session := { hintCount := rollbackHint h1, history := s.history },
        networkCalls := sr.networkCalls,
        outcome := .normal,
        budgetWarned := false }

/-- One rerun of the hint section (src/main.py lines 219-251).  The whole
input/button region exists only while `hint_count < MAX_HINTS`; otherwise
the warning of line 251 is rendered and nothing else happens. -/
def hintStep (s : HintSession) (i : HintInputs) : HintStepResult :=
  if s.hintCount < MAX_HINTS then
    match i.connector with
    | some c =>
        if i.pressed ∧ i.question ≠ "" then
          hintProcess s i.question c i.transport
        else
          { session := s, networkCalls := 0, outcome := .normal,
            budgetWarned := false }
    | none =>
        { session := s, networkCalls := 0, outcome := .normal,
          budgetWarned := false }
  else
    { session := s, networkCalls := 0, outcome := .normal,
      budgetWarned := true }

/-- A sequence of hint-section reruns. -/
def hintRun (s : HintSession) (ops : List HintInputs) : HintSession :=
  ops.foldl (fun t i => (hintStep t i).session) s

/-- Across one rerun the hint count either stays put or, when it was below
the budget, rises by exactly one (a failed request's pre-debit is undone
by the in-step rollback). -/
theorem hintStep_count_cases (s : HintSession) (i : HintInputs) :
    (hintStep s i).session.hintCount = s.hintCount
    ∨ (s.hintCount < MAX_HINTS
        ∧ (hintStep s i).session.hintCount = s.hintCount + 1) := by
  unfold hintStep
  split
  case isTrue hlt =>
    split
    case h_1 c heq =>
      split
      case isTrue hp =>
        unfold hintProcess
        simp only
        split
        case h_1 body hb =>
          split
          case isTrue ht =>
            split
            case h_1 content hc => right; exact ⟨hlt, rfl⟩
            case h_2 hc => right; exact ⟨hlt, rfl⟩
          case isFalse ht =>
            left
            simp [rollbackHint]
        case h_2 hb =>
          left
          simp [rollbackHint]
      case isFalse hp => left; rfl
    case h_2 heq => left; rfl
  case isFalse hlt => left; rfl

/-- Along any run the hint count stays within `[0, MAX_HINTS]`. -/
theorem hintRun_bounds (ops : List HintInputs) (t : HintSession)
    (h0 : 0 ≤ t.hintCount) (h2 : t.hintCount ≤ MAX_HINTS) :
    0 ≤ (hintRun t ops).hintCount ∧ (hintRun t ops).hintCount ≤ MAX_HINTS := by
  induction ops generalizing t with
  | nil => exact ⟨h0, h2⟩
  | cons a l ih =>
    have hstep : hintRun t (a :: l) = hintRun (hintStep t a).session l := rfl
    have hM : MAX_HINTS = 2 := rfl
    rw [hstep]
    rcases hintStep_count_cases t a with h | ⟨hlt, h⟩
    · exact ih _ (by omega) (by omega)
    · exact ih _ (by omega) (by omega)

/-- C2: starting from the initial session, the hint count never exceeds
`MAX_HINTS` over any sequence of hint-section reruns, and across every
single rerun it is non-decreasing (the only decrement, the rollback of a
failed request, merely cancels that same rerun's pre-debit, so the count
never drops below its value before the rerun). -/
theorem hint_count_monotone_and_bounded (ops : List HintInputs)
    (s : HintSession) (i : HintInputs) :
    (hintRun initHintSession ops).hintCount ≤ MAX_HINTS
    ∧ s.hintCount ≤ (hintStep s i).session.hintCount := by
  constructor
  · exact (hintRun_bounds ops initHintSession (by decide) (by decide)).2
  · rcases hintStep_count_cases s i with h | ⟨hlt, h⟩ <;> omega

/-- C3: once the hint count has reached `MAX_HINTS`, a rerun of the hint
section performs no network call, leaves the session (count and history)
unchanged, raises nothing, and shows the budget-exhausted warning. -/
theorem hint_budget_exhausted_rejected_without_network (s : HintSession)
    (i : HintInputs) (h : MAX_HINTS ≤ s.hintCount) :
    hintStep s i = { session := s, networkCalls := 0, outcome := .normal,
                     budgetWarned := true } := by
  unfold hintStep
  rw [if_neg (by omega)]

/-- Witness for C3 at a session that has used both hints. -/
theorem hint_budget_exhausted_rejected_without_network_witness :
    hintStep ⟨2, []⟩ ⟨true, "q", none, .exn "boom"⟩
      = { session := ⟨2, []⟩, networkCalls := 0, outcome := .normal,
          budgetWarned := true } :=
  hint_budget_exhausted_rejected_without_network ⟨2, []⟩
    ⟨true, "q", none, .exn "boom"⟩ (by decide)

/-- C5 counterexample: the code's rollback is an unclamped decrement, so
applied to a session whose hint count is 0 it produces -1, not the
claimed `max (0 - 1) 0 = 0`. -/
theorem rollbackHint_at_zero_goes_negative :
    rollbackHint 0 = -1 ∧ rollbackHint 0 ≠ max ((0 : Int) - 1) 0 := by
  constructor
  · rfl
  · decide

/-- C5 amended: `rollbackHint` decrements the hint count by exactly 1 with
no clamp at zero (at 0 it yields -1); the program, however, only executes
it immediately after the pre-debit of a hint request, so along every run
from the initial session the hint count never becomes negative. -/
theorem rollbackHint_decrements_and_reachable_nonneg (h : Int)
    (ops : List HintInputs) :
    rollbackHint h = h - 1
    ∧ 0 ≤ (hintRun initHintSession ops).hintCount :=
  ⟨rfl, (hintRun_bounds ops initHintSession (by decide) (by decide)).1⟩

/-- C10: when the gateway call succeeds (token present, HTTP status below
400, parseable truthy JSON body) but the body lacks the
`message.content` structure, the rerun aborts with an uncaught exception
after the hint count was already pre-debited: the count stays incremented,
the rollback branch is not executed, and no hint is recorded in the
history. -/
theorem hint_success_path_leaks_budget_on_malformed_body
    (s : HintSession) (i : HintInputs) (c : Connector) (tok : String)
    (body : Json) (status : Nat) (rid : Option String)
    (hcount : s.hintCount < MAX_HINTS) (hp : i.pressed = true)
    (hq : i.question ≠ "") (hconn : i.connector = some c)
    (htok : c.token = some tok)
    (ht : i.transport = .httpResponse status (.ok body) rid)
    (hstat : status < 400) (htruthy : body.truthy = true)
    (hmissing : (body.get "message").bind (fun m => m.get "content") = none) :
    hintStep s i
      = { session := { hintCount := s.hintCount + 1, history := s.history },
          networkCalls := 1, outcome := .raised, budgetWarned := false } := by
  have hsend : send_cortex_message i.question c i.transport
      = { result := some body, errors := [], networkCalls := 1 } := by
    unfold send_cortex_message
    rw [htok, ht]
    simp only
    rw [if_pos hstat]
  unfold hintStep
  rw [if_pos hcount, hconn]
  simp only
  rw [if_pos ⟨hp, hq⟩]
  unfold hintProcess
  rw [hsend]
  simp only [htruthy, if_true, hmissing]

/-- Witness for C10: a 200 response whose body is `{"x": "y"}` leaves the
count debited with nothing recorded. -/
theorem hint_success_path_leaks_budget_on_malformed_body_witness :
    hintStep ⟨0, []⟩
      ⟨true, "q", some ⟨"h", some "tok", fun _ => .error "e"⟩,
        .httpResponse 200 (.ok (.obj [("x", .str "y")])) none⟩
      = { session := { hintCount := 0 + 1, history := [] },
          networkCalls := 1, outcome := .raised, budgetWarned := false } :=
  hint_success_path_leaks_budget_on_malformed_body
    ⟨0, []⟩ _ ⟨"h", some "tok", fun _ => .error "e"⟩ "tok"
    (.obj [("x", .str "y")]) 200 none (by decide) rfl (by decide) rfl rfl rfl
    (by decide) rfl rfl

/-! ## The attempt/reset logic of `run` -/

/-- The whole per-tab mutable state: the quiz dict of `init_state` plus
the hint keys of `st.session_state`. -/
structure AppState where
  quiz : QuizState
  hint : HintSession

/-- A user interaction handled by one rerun of `run`: the hint section of
`present_quiz`, the `討伐開始` submit button (rendered only while
`attempts < MAX_ATTEMPTS_MAIN`), or the `リセット` button (rendered only
once `attempts >= MAX_ATTEMPTS_MAIN`). -/
inductive AppOp where
  | hintAction : HintInputs → AppOp
  | submit : String → AppOp
  | reset : AppOp

/-- The reset handler's body (src/main.py lines 308-310):
`state['attempts'] = 0; state['is_clear'] = False; save_state(state)`. -/
def resetState (q : QuizState) : QuizState :=
  { q with attempts := 0, is_clear := false }

/-- One rerun of `run` (src/main.py lines 298-315) on one interaction.
The submit path runs `process_answer` only in the `else` branch of the
attempt-limit check; the reset button exists only in the `then` branch. -/
def appStep (s : AppState) : AppOp → AppState
  | .hintAction i => { s with hint := (hintStep s.hint i).session }
  | .submit a =>
      if s.quiz.attempts < MAX_ATTEMPTS_MAIN then
        { s with quiz := (process_answer a s.quiz).1 }
      else s
  | .reset =>
      if MAX_ATTEMPTS_MAIN ≤ s.quiz.attempts then
        { s with quiz := resetState s.quiz }
      else s

/-- C6: reset sets `attempts` to 0 and `is_clear` to false and changes
nothing else — the tab name and the hint count/history survive it — and
it is the only interaction that leaves the attempts-exhausted condition:
any other interaction keeps `attempts` at or above the maximum, while
reset drops it below. -/
theorem reset_clears_attempts_only (s : AppState) (op : AppOp) :
    resetState s.quiz
      = { tab_name := s.quiz.tab_name, is_clear := false, attempts := 0 }
    ∧ (appStep s .reset).hint = s.hint
    ∧ (MAX_ATTEMPTS_MAIN ≤ s.quiz.attempts → op ≠ AppOp.reset →
        MAX_ATTEMPTS_MAIN ≤ (appStep s op).quiz.attempts)
    ∧ (MAX_ATTEMPTS_MAIN ≤ s.quiz.attempts →
        (appStep s AppOp.reset).quiz.attempts < MAX_ATTEMPTS_MAIN) := by
  refine ⟨rfl, ?_, ?_, ?_⟩
  · simp only [appStep]
    split <;> rfl
  · intro hx hop
    cases op with
    | hintAction i => simpa only [appStep] using hx
    | submit a =>
        simp only [appStep]
        rw [if_neg (by omega)]
        exact hx
    | reset => exact absurd rfl hop
  · intro hx
    simp only [appStep]
    rw [if_pos hx]
    simp only [resetState]
    decide

/-- Witness for C6 at an exhausted session. -/
theorem reset_clears_attempts_only_witness :
    MAX_ATTEMPTS_MAIN
        ≤ (appStep ⟨⟨"q6_test", false, 100⟩, ⟨1, []⟩⟩
            (.submit "東京都")).quiz.attempts
    ∧ (appStep ⟨⟨"q6_test", false, 100⟩, ⟨1, []⟩⟩
          AppOp.reset).quiz.attempts < MAX_ATTEMPTS_MAIN :=
  ⟨(reset_clears_attempts_only ⟨⟨"q6_test", false, 100⟩, ⟨1, []⟩⟩
      (.submit "東京都")).2.2.1 (by decide) (by simp),
   (reset_clears_attempts_only ⟨⟨"q6_test", false, 100⟩, ⟨1, []⟩⟩
      (.submit "東京都")).2.2.2 (by decide)⟩

/-- C7 counterexample: the reset interaction decreases `attemptCount` —
from an exhausted session with 100 attempts, reset drops it to 0. -/
theorem reset_decreases_attempts :
    (appStep ⟨⟨"q6_test", false, 100⟩, ⟨2, []⟩⟩ AppOp.reset).quiz.attempts
      < (⟨⟨"q6_test", false, 100⟩, ⟨2, []⟩⟩ : AppState).quiz.attempts := by
  decide

/-- C7 amended: `attemptCount` never decreases under answer submission or
any hint interaction; the one exception is the reset button (offered only
once the attempt limit is reached), which sets it back to 0. -/
theorem attempts_nondecreasing_except_reset (s : AppState) (op : AppOp) :
    (op ≠ AppOp.reset → s.quiz.attempts ≤ (appStep s op).quiz.attempts)
    ∧ (MAX_ATTEMPTS_MAIN ≤ s.quiz.attempts →
        (appStep s AppOp.reset).quiz.attempts = 0) := by
  constructor
  · intro hop
    cases op with
    | hintAction i => simp only [appStep]; exact Nat.le_refl _
    | submit a =>
        simp only [appStep]
        split
        · unfold process_answer
          split
          · split <;> exact Nat.le_succ _
          · exact Nat.le_refl _
        · exact Nat.le_refl _
    | reset => exact absurd rfl hop
  · intro hx
    simp only [appStep]
    rw [if_pos hx]
    rfl

/-- Witness for C7's amended theorem. -/
theorem attempts_nondecreasing_except_reset_witness :
    (⟨⟨"q6_test", false, 3⟩, ⟨0, []⟩⟩ : AppState).quiz.attempts
      ≤ (appStep ⟨⟨"q6_test", false, 3⟩, ⟨0, []⟩⟩ (.submit "岡山県")).quiz.attempts
    ∧ (appStep ⟨⟨"q6_test", false, 100⟩, ⟨0, []⟩⟩ AppOp.reset).quiz.attempts = 0 :=
  ⟨(attempts_nondecreasing_except_reset ⟨⟨"q6_test", false, 3⟩, ⟨0, []⟩⟩
      (.submit "岡山県")).1 (by simp),
   (attempts_nondecreasing_except_reset ⟨⟨"q6_test", false, 100⟩, ⟨0, []⟩⟩
      AppOp.reset).2 (by decide)⟩

/-- C9: a cleared session is not latched.  With `is_clear = true`, a
non-empty wrong answer increments `attempts` and flips `is_clear` back to
false; and a correct answer is not ignored once cleared — it re-runs the
success path (incrementing `attempts` and displaying the celebration). -/
theorem cleared_session_not_latched (q : QuizState) (a : String)
    (_hc : q.is_clear = true) :
    (pyStrip a ≠ "" → pyStrip a ≠ correct_answer →
      process_answer a q
        = ({ q with attempts := q.attempts + 1, is_clear := false }, .rejected))
    ∧ (pyStrip a = correct_answer →
      process_answer a q
        = ({ q with attempts := q.attempts + 1, is_clear := true }, .accepted)) := by
  constructor
  · intro h1 h2
    have ha : a ≠ "" := by
      intro he
      apply h1
      rw [he]
      rfl
    unfold process_answer
    rw [if_pos ⟨ha, h1⟩, if_neg h2]
  · intro h1
    have h2 : pyStrip a ≠ "" := by
      rw [h1]
      decide
    have ha : a ≠ "" := by
      intro he
      apply h2
      rw [he]
      rfl
    unfold process_answer
    rw [if_pos ⟨ha, h2⟩, if_pos h1]

/-- Witness for C9 at a cleared session. -/
theorem cleared_session_not_latched_witness :
    process_answer "東京都" ⟨"q6_test", true, 5⟩
      = (⟨"q6_test", false, 6⟩, .rejected)
    ∧ process_answer "岡山県" ⟨"q6_test", true, 5⟩
      = (⟨"q6_test", true, 6⟩, .accepted) :=
  ⟨(cleared_session_not_latched ⟨"q6_test", true, 5⟩ "東京都" rfl).1
      (by decide) (by decide),
   (cleared_session_not_latched ⟨"q6_test", true, 5⟩ "岡山県" rfl).2
      (by decide)⟩

